import Mathlib

/-!
Verification development for the quantitative decision pipeline of the
claude_code stock-analysis repository.

Shallow embedding of the components named by the claims:
- `src/quant/indicators.py`  (pandas series modelled as lists; NaN/Inf as `none`)
- `src/quant/factors.py`     (`FactorCompositor.calculate_composite_score`)
- `src/decision/decision_maker.py` (`_calculate_composite_score`, `_generate_decision`)
- `src/decision/risk_control.py`   (`RiskControlAgent.run`, `set_config`)
- `src/decision/trade_executor.py` (`MockTradeExecutor`)

Python floats are modelled as exact rationals; a pandas value that is NaN or
±Inf (division by zero, missing rolling window) is modelled as `none` in
`Option ℚ`.  Python `int(x)` (truncation toward zero) is `pytrunc`.
-/

/-- Python `int(x)` on a float: truncation toward zero. -/
def pytrunc (q : ℚ) : ℤ := if q < 0 then ⌈q⌉ else ⌊q⌋

/-- First-match association-list lookup (Python dict access / membership). -/
def alookup {α β : Type} [DecidableEq α] : List (α × β) → α → Option β
  | [], _ => none
  | (k, v) :: rest, key => if k = key then some v else alookup rest key

namespace MockExec

/-- One entry of `MockTradeExecutor.positions`: symbol → quantity and avg_cost. -/
structure PosEntry where
  quantity : ℤ
  avg_cost : ℚ
deriving Repr, DecidableEq

/-- One entry of `MockTradeExecutor.trade_history` (timestamps omitted). -/
structure TradeRec where
  symbol : String
  action : String
  price : ℚ
  quantity : ℤ
  amount : ℚ
deriving Repr, DecidableEq

/-- The `MockTradeExecutor` ledger state. -/
structure MState where
  initial_capital : ℚ
  cash : ℚ
  positions : List (String × PosEntry)
  trade_history : List TradeRec
deriving Repr, DecidableEq

/-- `MockTradeExecutor.__init__(initial_capital)`. -/
def init (initial_capital : ℚ) : MState :=
  { initial_capital := initial_capital
    cash := initial_capital
    positions := []
    trade_history := [] }

/-- Replace the entry stored under `sym` (Python dict assignment to an existing key,
which keeps insertion order). -/
def setPos : List (String × PosEntry) → String → PosEntry → List (String × PosEntry)
  | [], _, _ => []
  | (k, v) :: rest, sym, e =>
      if k = sym then (k, e) :: setPos rest sym e
      else (k, v) :: setPos rest sym e

/-- Delete the entry stored under `sym` (Python `del`). -/
def delPos : List (String × PosEntry) → String → List (String × PosEntry)
  | [], _ => []
  | (k, v) :: rest, sym =>
      if k = sym then delPos rest sym else (k, v) :: delPos rest sym

/-- `MockTradeExecutor.buy(symbol, price, quantity)`; fee 0.03 percent.
Returns the Python `bool` result together with the post-state. -/
def buy (s : MState) (sym : String) (price : ℚ) (qty : ℤ) : Bool × MState :=
  let cost : ℚ := price * qty * (10003 / 10000)
  if s.cash < cost then
    (false, s)
  else
    let positions :=
      match alookup s.positions sym with
      | some e =>
          let newQty := e.quantity + qty
          let newCost := (e.avg_cost * e.quantity + price * qty) / newQty
          setPos s.positions sym { quantity := newQty, avg_cost := newCost }
      | none => s.positions ++ [(sym, { quantity := qty, avg_cost := price })]
    (true,
      { s with
        cash := s.cash - cost
        positions := positions
        trade_history := s.trade_history ++
          [{ symbol := sym, action := "buy", price := price, quantity := qty,
             amount := cost }] })

/-- `MockTradeExecutor.sell(symbol, price, quantity)`; fee 0.03 percent. -/
def sell (s : MState) (sym : String) (price : ℚ) (qty : ℤ) : Bool × MState :=
  match alookup s.positions sym with
  | none => (false, s)
  | some e =>
    if e.quantity < qty then
      (false, s)
    else
      let revenue : ℚ := price * qty * (9997 / 10000)
      let remaining := e.quantity - qty
      let positions :=
        if remaining = 0 then delPos s.positions sym
        else setPos s.positions sym { quantity := remaining, avg_cost := e.avg_cost }
      (true,
        { s with
          cash := s.cash + revenue
          positions := positions
          trade_history := s.trade_history ++
            [{ symbol := sym, action := "sell", price := price, quantity := qty,
               amount := revenue }] })

/-- `MockTradeExecutor.get_portfolio_value(prices)`: cash plus quantity times
current price for each held position whose symbol appears in `prices`. -/
def get_portfolio_value (s : MState) (prices : List (String × ℚ)) : ℚ :=
  let position_value := s.positions.foldl
    (fun acc kv =>
      match alookup prices kv.1 with
      | some p => acc + kv.2.quantity * p
      | none => acc) 0
  s.cash + position_value

/-- `MockTradeExecutor.get_returns(prices)`. -/
def get_returns (s : MState) (prices : List (String × ℚ)) : ℚ :=
  (get_portfolio_value s prices - s.initial_capital) / s.initial_capital * 100

/-- Held quantity of `sym` (0 when no entry exists). -/
def qtyOf (ps : List (String × PosEntry)) (sym : String) : ℤ :=
  match alookup ps sym with
  | some e => e.quantity
  | none => 0

end MockExec

namespace Ind

/-!
Embedding of `src/quant/indicators.py`.  A pandas float series is a
`List (Option ℚ)`; `none` stands for a value that is not a finite number
(NaN, or ±Inf from a division by zero).  Elementwise arithmetic propagates
`none`, and division by zero produces `none`.
-/

/-- Elementwise addition with NaN propagation. -/
def oAdd : Option ℚ → Option ℚ → Option ℚ
  | some a, some b => some (a + b)
  | _, _ => none

/-- Elementwise subtraction with NaN propagation. -/
def oSub : Option ℚ → Option ℚ → Option ℚ
  | some a, some b => some (a - b)
  | _, _ => none

/-- Elementwise multiplication with NaN propagation. -/
def oMul : Option ℚ → Option ℚ → Option ℚ
  | some a, some b => some (a * b)
  | _, _ => none

/-- Elementwise float division: NaN operands propagate, and a zero divisor
yields a non-finite result (NaN from 0/0, ±Inf otherwise). -/
def oDiv : Option ℚ → Option ℚ → Option ℚ
  | some a, some b => if b = 0 then none else some (a / b)
  | _, _ => none

/-- `series.diff()`: first element NaN, then pairwise differences. -/
def sdiff : List ℚ → List (Option ℚ)
  | [] => []
  | x :: xs => none :: List.zipWith (fun b a => some (b - a)) xs (x :: xs)

/-- `delta.where(delta > 0, 0)`: keep positive entries, everything else
(including NaN, which compares false) becomes 0. -/
def whereGtZero (l : List (Option ℚ)) : List (Option ℚ) :=
  l.map (fun x =>
    match x with
    | some d => if 0 < d then some d else some 0
    | none => some 0)

/-- `-delta.where(delta < 0, 0)`: keep negative entries negated, everything
else becomes 0. -/
def negWhereLtZero (l : List (Option ℚ)) : List (Option ℚ) :=
  l.map (fun x =>
    match x with
    | some d => if d < 0 then some (-d) else some 0
    | none => some 0)

/-- Recursion core of `series.ewm(..., adjust=False).mean()`:
`st` is the running mean (none before the first valid value).  A NaN input
leaves the state unchanged and emits the carried-forward mean. -/
def ewmGo (a : ℚ) (st : Option ℚ) : List (Option ℚ) → List (Option ℚ)
  | [] => []
  | none :: rest => st :: ewmGo a st rest
  | some v :: rest =>
      match st with
      | none => some v :: ewmGo a (some v) rest
      | some m =>
          let m2 := (1 - a) * m + a * v
          some m2 :: ewmGo a (some m2) rest

/-- `series.ewm(..., adjust=False).mean()` with smoothing factor `a`
(`span=n` gives `a = 2/(n+1)`, `com=c` gives `a = 1/(1+c)`). -/
def ewm (a : ℚ) (xs : List (Option ℚ)) : List (Option ℚ) :=
  ewmGo a none xs

/-- The window of the last `w` values ending at index `i`. -/
def windowAt (xs : List ℚ) (w i : ℕ) : List ℚ :=
  (xs.take (i + 1)).drop (i + 1 - w)

/-- Minimum of a list (0 for the empty list, which never occurs in use). -/
def listMin : List ℚ → ℚ
  | [] => 0
  | x :: xs => xs.foldl min x

/-- Maximum of a list (0 for the empty list, which never occurs in use). -/
def listMax : List ℚ → ℚ
  | [] => 0
  | x :: xs => xs.foldl max x

/-- `series.rolling(window=w).min()`: NaN until a full window is available. -/
def rollingMin (w : ℕ) (xs : List ℚ) : List (Option ℚ) :=
  (List.range xs.length).map (fun i =>
    if i + 1 < w then none else some (listMin (windowAt xs w i)))

/-- `series.rolling(window=w).max()`. -/
def rollingMax (w : ℕ) (xs : List ℚ) : List (Option ℚ) :=
  (List.range xs.length).map (fun i =>
    if i + 1 < w then none else some (listMax (windowAt xs w i)))

/-- `IndicatorCalculator.calculate_rsi(prices, period=14)`.  The rolling-mean
lines in the source are immediately overwritten by the `ewm` versions, so only
the effective `ewm` computation is modelled. -/
def rsiSeries (closes : List ℚ) : List (Option ℚ) :=
  let delta := sdiff closes
  let gain := whereGtZero delta
  let loss := negWhereLtZero delta
  let avg_gain := ewm (2 / 15) gain
  let avg_loss := ewm (2 / 15) loss
  let rs := List.zipWith oDiv avg_gain avg_loss
  rs.map (fun r => oSub (some 100) (oDiv (some 100) (oAdd (some 1) r)))

/-- The `rsv` series of `IndicatorCalculator.calculate_kdj` (period = 9):
`(close - lowest_low) / (highest_high - lowest_low) * 100`, with no guard
against a zero-width range. -/
def rsvSeries (high low close : List ℚ) : List (Option ℚ) :=
  let lowest_low := rollingMin 9 low
  let highest_high := rollingMax 9 high
  List.zipWith (fun (c : ℚ) (p : Option ℚ × Option ℚ) =>
      oMul (oDiv (oSub (some c) p.1) (oSub p.2 p.1)) (some 100))
    close (lowest_low.zip highest_high)

/-- The `k` series of `calculate_kdj`: `rsv.ewm(com=2, adjust=False).mean()`. -/
def kSeries (high low close : List ℚ) : List (Option ℚ) :=
  ewm (1 / 3) (rsvSeries high low close)

/-- The `d` series of `calculate_kdj`: `k.ewm(com=2, adjust=False).mean()`. -/
def dSeries (high low close : List ℚ) : List (Option ℚ) :=
  ewm (1 / 3) (kSeries high low close)

/-- The `j` series of `calculate_kdj`: `3 * k - 2 * d`. -/
def jSeries (high low close : List ℚ) : List (Option ℚ) :=
  List.zipWith (fun k d => oSub (oMul (some 3) k) (oMul (some 2) d))
    (kSeries high low close) (dSeries high low close)

/-- The `histogram` series of `IndicatorCalculator.calculate_macd(12, 26, 9)`. -/
def macdHistSeries (closes : List ℚ) : List (Option ℚ) :=
  let ema_fast := ewm (2 / 13) (closes.map some)
  let ema_slow := ewm (2 / 27) (closes.map some)
  let macd_line := List.zipWith oSub ema_fast ema_slow
  let signal_line := ewm (2 / 10) macd_line
  List.zipWith oSub macd_line signal_line

/-- `series.iloc[-1]` (callers only reach it on nonempty series). -/
def lastO (l : List (Option ℚ)) : Option ℚ :=
  match l.getLast? with
  | some x => x
  | none => none

/-- `x.iloc[-1] if len(x) > 0 else 0`, the guard used in
`calculate_all_indicators` for the KDJ and MACD fields. -/
def lastOrZero (l : List (Option ℚ)) : Option ℚ :=
  if l = [] then some 0 else lastO l

/-- `calculate_all_indicators(df)['rsi']` (no length guard in the source). -/
def indRsi (close : List ℚ) : Option ℚ := lastO (rsiSeries close)

/-- `calculate_all_indicators(df)['k']`. -/
def indK (high low close : List ℚ) : Option ℚ := lastOrZero (kSeries high low close)

/-- `calculate_all_indicators(df)['d']`. -/
def indD (high low close : List ℚ) : Option ℚ := lastOrZero (dSeries high low close)

/-- `calculate_all_indicators(df)['j']`. -/
def indJ (high low close : List ℚ) : Option ℚ := lastOrZero (jSeries high low close)

/-- `calculate_all_indicators(df)['macd_histogram']`. -/
def indMacdHistogram (close : List ℚ) : Option ℚ := lastOrZero (macdHistSeries close)

end Ind

namespace DM

/-- The factor names that reach `FactorCompositor.calculate_composite_score`
from `DecisionMaker._calculate_composite_score` or the compositor's own
default weight table. -/
inductive FactorKey where
  | rsi
  | momentum_5d
  | momentum_10d
  | main_flow_rate
  | volume_ratio
  | price_position
  | vol_change
  | sentiment
deriving Repr, DecidableEq

/-- The normalization branch of `calculate_composite_score` for one factor.
`sentiment` matches none of the listed names, so it falls into the source's
final `else` and contributes 0. -/
def normalizedContribution (name : FactorKey) (value weight : ℚ) : ℚ :=
  match name with
  | FactorKey.rsi => (value - 50) * weight / 100 * 2
  | FactorKey.momentum_5d => value / 20 * weight
  | FactorKey.momentum_10d => value / 20 * weight
  | FactorKey.main_flow_rate => value / 50 * weight
  | FactorKey.volume_ratio => value / 50 * weight
  | FactorKey.price_position => (value - 50) * weight / 100 * 2
  | FactorKey.vol_change => value / 100 * weight
  | FactorKey.sentiment => 0

/-- `FactorCompositor.calculate_composite_score(factors, weights)`:
iterate over the weight table; a factor present in `factors` adds its
normalized contribution to `score` and its weight to `total_weight`;
finally rescale by `total_weight` when positive. -/
def calculate_composite_score (factors : List (FactorKey × ℚ))
    (weights : List (FactorKey × ℚ)) : ℚ :=
  let sw := weights.foldl
    (fun (acc : ℚ × ℚ) kw =>
      match alookup factors kw.1 with
      | some v => (acc.1 + normalizedContribution kw.1 v kw.2, acc.2 + kw.2)
      | none => acc)
    (0, 0)
  if 0 < sw.2 then sw.1 / sw.2 * 100 else sw.1

/-- `DecisionMaker._calculate_composite_score(indicators, factors, sentiment_score)`:
the factor dictionary it builds and the weight table it passes
(rsi 15, momentum_5d 15, main_flow_rate 20, volume_ratio 10, sentiment 20,
with the sentiment score scaled by 100). -/
def dmCompositeScore (rsi momentum_5d main_flow_rate volume_ratio
    sentiment_score : ℚ) : ℚ :=
  calculate_composite_score
    [(FactorKey.rsi, rsi),
     (FactorKey.momentum_5d, momentum_5d),
     (FactorKey.main_flow_rate, main_flow_rate),
     (FactorKey.volume_ratio, volume_ratio),
     (FactorKey.sentiment, sentiment_score * 100)]
    [(FactorKey.rsi, 15),
     (FactorKey.momentum_5d, 15),
     (FactorKey.main_flow_rate, 20),
     (FactorKey.volume_ratio, 10),
     (FactorKey.sentiment, 20)]

/-- The five decision tiers (the source uses the Chinese strings
强烈买入 / 买入 / 观望 / 卖出 / 强烈卖出). -/
inductive Tier where
  | strong_buy
  | buy
  | hold
  | sell
  | strong_sell
deriving Repr, DecidableEq

/-- The score-dependent part of a `DecisionResult`. -/
structure DecisionOut where
  decision : Tier
  position : ℤ
  confidence : ℚ
deriving Repr, DecidableEq

/-- The tier / position / confidence mapping of
`DecisionMaker._generate_decision` (the rationale text does not depend on the
composite score and is not modelled). -/
def generate_decision (composite_score : ℚ) : DecisionOut :=
  if 50 < composite_score then
    { decision := Tier.strong_buy
      position := min 100 (pytrunc (50 + composite_score))
      confidence := min 10 ((composite_score - 50) / 5 + 5) }
  else if 30 < composite_score then
    { decision := Tier.buy
      position := min 80 (pytrunc (30 + composite_score / 2))
      confidence := min 10 ((composite_score - 30) / 2 + 5) }
  else if -30 < composite_score then
    { decision := Tier.hold
      position := min 30 (pytrunc (composite_score + 30))
      confidence := 5 }
  else if -50 < composite_score then
    { decision := Tier.sell
      position := max 0 (50 + pytrunc (composite_score / 2))
      confidence := min 10 ((-composite_score - 30) / 2 + 5) }
  else
    { decision := Tier.strong_sell
      position := max 0 (50 + pytrunc composite_score)
      confidence := min 10 ((-composite_score - 50) / 5 + 5) }

end DM

namespace Risk

/-- The three risk levels. -/
inductive RiskLevel where
  | low
  | medium
  | high
deriving Repr, DecidableEq

/-- Numeric rank of a risk level, for the escalation order low → medium → high. -/
def RiskLevel.rank : RiskLevel → ℕ
  | RiskLevel.low => 0
  | RiskLevel.medium => 1
  | RiskLevel.high => 2

/-- The five keys of `RiskControlAgent.config`. -/
inductive RKey where
  | max_single_position
  | max_total_position
  | max_positions
  | max_loss_per_stock
  | max_drawdown
deriving Repr, DecidableEq

/-- `RiskControlAgent.config` as a record. -/
structure RiskConfig where
  max_single_position : ℚ
  max_total_position : ℚ
  max_positions : ℚ
  max_loss_per_stock : ℚ
  max_drawdown : ℚ
deriving Repr, DecidableEq

/-- The defaults set in `RiskControlAgent.__init__`. -/
def defaultRiskConfig : RiskConfig :=
  { max_single_position := 30
    max_total_position := 80
    max_positions := 10
    max_loss_per_stock := 15
    max_drawdown := 20 }

/-- Store one key (one entry of a Python `dict.update`). -/
def setKey (c : RiskConfig) (k : RKey) (v : ℚ) : RiskConfig :=
  match k with
  | RKey.max_single_position => { c with max_single_position := v }
  | RKey.max_total_position => { c with max_total_position := v }
  | RKey.max_positions => { c with max_positions := v }
  | RKey.max_loss_per_stock => { c with max_loss_per_stock := v }
  | RKey.max_drawdown => { c with max_drawdown := v }

/-- `self.config.update(config)`. -/
def applyPatch (c : RiskConfig) (patch : List (RKey × ℚ)) : RiskConfig :=
  patch.foldl (fun acc kv => setKey acc kv.1 kv.2) c

/-- The fields of the `decision` dict that `RiskControlAgent.run` reads. -/
structure RDecision where
  decision : DM.Tier
  position : ℚ
  confidence : ℚ
  symbol : String

/-- The fields of the `portfolio` dict that `RiskControlAgent.run` reads:
`positions` is a list of dicts with `symbol` and `position`; `lossOf s` models
`portfolio.get(s + '_loss', 0)`. -/
structure RPortfolio where
  positions : List (String × ℚ)
  total_position : ℚ
  lossOf : String → ℚ
  drawdown : ℚ

/-- Warnings appended by `run` (their payloads are the values interpolated
into the source's f-strings). -/
inductive RWarning where
  | sellAdvice
  | lowConfidence (confidence : ℚ)
  | tooManyPositions (count : ℕ)
  | totalClamped (available : ℚ)
  | singleClamped (adjusted : ℚ)
deriving Repr, DecidableEq

/-- Rejection reasons appended by `run`. -/
inductive RReason where
  | sellSignal
  | positionCountExceeded
  | totalAtCap
  | stockLossExceeded (loss : ℚ)
  | drawdownExceeded (drawdown : ℚ)
deriving Repr, DecidableEq

/-- `RiskCheckResult`. -/
structure RiskCheckResult where
  approved : Bool
  risk_level : RiskLevel
  warnings : List RWarning
  adjusted_position : ℚ
  reasons : List RReason
deriving Repr, DecidableEq

/-- `RiskControlAgent._get_position_by_symbol(positions, symbol)`. -/
def getPositionBySymbol (positions : List (String × ℚ)) (symbol : String) : ℚ :=
  match alookup positions symbol with
  | some p => p
  | none => 0

/-- `adjusted_position` after rule 2 (confidence below 5 halves it through
Python `int`). -/
def adjAfter2 (d : RDecision) : ℚ :=
  if d.confidence < 5 then ((pytrunc (d.position * (1 / 2)) : ℤ) : ℚ) else d.position

/-- `adjusted_position` after rule 4 (total-position cap). -/
def adjAfter4 (cfg : RiskConfig) (d : RDecision) (p : RPortfolio) : ℚ :=
  let a2 := adjAfter2 d
  if cfg.max_total_position < p.total_position + a2 then
    (if 0 < cfg.max_total_position - p.total_position then
      cfg.max_total_position - p.total_position
    else 0)
  else a2

/-- Whether rule 5 (single-symbol cap) fires: the symbol has a truthy existing
position and the projected single-symbol position exceeds the cap. -/
def rule5Fires (cfg : RiskConfig) (d : RDecision) (p : RPortfolio) : Prop :=
  getPositionBySymbol p.positions d.symbol ≠ 0 ∧
    cfg.max_single_position <
      getPositionBySymbol p.positions d.symbol + adjAfter4 cfg d p

instance (cfg : RiskConfig) (d : RDecision) (p : RPortfolio) :
    Decidable (rule5Fires cfg d p) := by
  unfold rule5Fires; infer_instance

/-- `adjusted_position` after rule 5 (single-symbol cap, floored at 0). -/
def adjAfter5 (cfg : RiskConfig) (d : RDecision) (p : RPortfolio) : ℚ :=
  let existing := getPositionBySymbol p.positions d.symbol
  if rule5Fires cfg d p then
    (if cfg.max_single_position - existing < 0 then 0
    else cfg.max_single_position - existing)
  else adjAfter4 cfg d p

/-- `adjusted_position` after rule 6 (per-symbol loss breaker). -/
def adjAfter6 (cfg : RiskConfig) (d : RDecision) (p : RPortfolio) : ℚ :=
  if getPositionBySymbol p.positions d.symbol ≠ 0 ∧
      cfg.max_loss_per_stock < |p.lossOf d.symbol| then 0
  else adjAfter5 cfg d p

/-- `adjusted_position` after rule 7 (drawdown breaker). -/
def adjAfter7 (cfg : RiskConfig) (d : RDecision) (p : RPortfolio) : ℚ :=
  if cfg.max_drawdown < p.drawdown then 0 else adjAfter6 cfg d p

/-- `RiskControlAgent.run(decision, portfolio)` evaluated against a given
configuration (the merge with the optional `config` argument is `runS`).
Besides the `RiskCheckResult` it returns the trace of every value assigned to
the `risk_level` variable (or returned in an early result), in program order:
rule 1 and rule 3 return `high` directly; rule 2 assigns `medium`; rule 4
assigns `high` when the total cap leaves no headroom; rule 5 assigns `medium`
whenever it clamps; rules 6 and 7 assign `high`. -/
def riskRun (cfg : RiskConfig) (d : RDecision) (p : RPortfolio) :
    RiskCheckResult × List RiskLevel :=
  if d.decision = DM.Tier.strong_sell ∨ d.decision = DM.Tier.sell then
    ({ approved := false
       risk_level := RiskLevel.high
       warnings := [RWarning.sellAdvice]
       adjusted_position := 0
       reasons := [RReason.sellSignal] }, [RiskLevel.high])
  else
    let fire2 := d.confidence < 5
    let a2 := adjAfter2 d
    let w2 : List RWarning :=
      if fire2 then [RWarning.lowConfidence d.confidence] else []
    let tr2 : List RiskLevel := if fire2 then [RiskLevel.medium] else []
    let lvl2 : RiskLevel := if fire2 then RiskLevel.medium else RiskLevel.low
    if cfg.max_positions ≤ (p.positions.length : ℚ) then
      ({ approved := false
         risk_level := RiskLevel.high
         warnings := w2 ++ [RWarning.tooManyPositions p.positions.length]
         adjusted_position := 0
         reasons := [RReason.positionCountExceeded] }, tr2 ++ [RiskLevel.high])
    else
      let available := cfg.max_total_position - p.total_position
      let fire4 := cfg.max_total_position < p.total_position + a2
      let w4 : List RWarning :=
        if fire4 ∧ 0 < available then [RWarning.totalClamped available] else []
      let r4 : List RReason :=
        if fire4 ∧ ¬0 < available then [RReason.totalAtCap] else []
      let tr4 : List RiskLevel :=
        if fire4 ∧ ¬0 < available then [RiskLevel.high] else []
      let lvl4 : RiskLevel :=
        if fire4 ∧ ¬0 < available then RiskLevel.high else lvl2
      let existing := getPositionBySymbol p.positions d.symbol
      let fire5 := rule5Fires cfg d p
      let a5 := adjAfter5 cfg d p
      let w5 : List RWarning := if fire5 then [RWarning.singleClamped a5] else []
      let tr5 : List RiskLevel := if fire5 then [RiskLevel.medium] else []
      let lvl5 : RiskLevel := if fire5 then RiskLevel.medium else lvl4
      let fire6 := existing ≠ 0 ∧ cfg.max_loss_per_stock < |p.lossOf d.symbol|
      let r6 : List RReason :=
        if fire6 then [RReason.stockLossExceeded (|p.lossOf d.symbol|)] else []
      let tr6 : List RiskLevel := if fire6 then [RiskLevel.high] else []
      let lvl6 : RiskLevel := if fire6 then RiskLevel.high else lvl5
      let fire7 := cfg.max_drawdown < p.drawdown
      let a7 := adjAfter7 cfg d p
      let r7 : List RReason :=
        if fire7 then [RReason.drawdownExceeded p.drawdown] else []
      let tr7 : List RiskLevel := if fire7 then [RiskLevel.high] else []
      let lvl7 : RiskLevel := if fire7 then RiskLevel.high else lvl6
      let reasons := r4 ++ r6 ++ r7
      ({ approved := reasons.isEmpty
         risk_level := lvl7
         warnings := w2 ++ w4 ++ w5
         adjusted_position := a7
         reasons := reasons }, tr2 ++ tr4 ++ tr5 ++ tr6 ++ tr7)

/-- `RiskControlAgent.run` including the statefulness of its optional `config`
argument: a non-empty (truthy) `config` is merged into `self.config` before
evaluation and the merged configuration is the agent's stored state
afterwards. -/
def runS (st : RiskConfig) (d : RDecision) (p : RPortfolio)
    (patch : List (RKey × ℚ)) : (RiskCheckResult × List RiskLevel) × RiskConfig :=
  let cfg := if patch = [] then st else applyPatch st patch
  (riskRun cfg d p, cfg)

/-- Once `high` appears in a risk-level trace, every later entry is `high`. -/
def highPersists (tr : List RiskLevel) : Prop :=
  ∀ i : Fin tr.length, ∀ j : Fin tr.length,
    i.val ≤ j.val → tr.get i = RiskLevel.high → tr.get j = RiskLevel.high

instance (tr : List RiskLevel) : Decidable (highPersists tr) := by
  unfold highPersists; infer_instance

end Risk

/-! ### Helper lemmas (shared) -/

namespace MockExec

theorem alookup_setPos_self (ps : List (String × PosEntry)) (sym : String)
    (e : PosEntry) (h : (alookup ps sym).isSome) :
    alookup (setPos ps sym e) sym = some e := by
  induction ps with
  | nil => simp [alookup] at h
  | cons kv rest ih =>
      obtain ⟨k, v⟩ := kv
      by_cases hk : k = sym
      · subst hk; simp [setPos, alookup]
      · simp only [alookup, if_neg hk] at h
        simp only [setPos, if_neg hk, alookup]
        exact ih h

theorem alookup_append_single (ps : List (String × PosEntry)) (sym : String)
    (e : PosEntry) (h : alookup ps sym = none) :
    alookup (ps ++ [(sym, e)]) sym = some e := by
  induction ps with
  | nil => simp [alookup]
  | cons kv rest ih =>
      obtain ⟨k, v⟩ := kv
      by_cases hk : k = sym
      · simp [alookup, hk] at h
      · simp only [alookup, if_neg hk] at h
        simpa [alookup, hk] using ih h

theorem alookup_delPos (ps : List (String × PosEntry)) (sym : String) :
    alookup (delPos ps sym) sym = none := by
  induction ps with
  | nil => simp [delPos, alookup]
  | cons kv rest ih =>
      obtain ⟨k, v⟩ := kv
      by_cases hk : k = sym
      · subst hk; simpa [delPos] using ih
      · simp only [delPos, if_neg hk, alookup]
        exact ih

end MockExec

theorem MockExec.value_foldl (prices : List (String × ℚ))
    (ps : List (String × MockExec.PosEntry)) (acc : ℚ) :
    ps.foldl (fun acc kv =>
        match alookup prices kv.1 with
        | some p => acc + kv.2.quantity * p
        | none => acc) acc =
      acc + ((ps.filter (fun kv => (alookup prices kv.1).isSome)).map
        (fun kv => (kv.2.quantity : ℚ) * ((alookup prices kv.1).getD 0))).sum := by
  induction ps generalizing acc with
  | nil => simp
  | cons kv rest ih =>
      cases hp : alookup prices kv.1 with
      | some p =>
          simp [hp, List.filter_cons, ih]
          ring
      | none =>
          simp [hp, List.filter_cons, ih]

/-! ### C5, C6, C10 — simulated ledger -/

/-- C5: a buy of q shares at price p with fee 0.03 percent either exceeds cash
(p·q·1.0003 > cash) and rejects with the whole portfolio unchanged, or debits
cash by exactly p·q·1.0003 and raises the held quantity by q; concretely,
from capital 1,000,000, buying 100 shares at price 100 leaves cash 989,997 and
the position quantity 100, avg_cost 100. -/
theorem C5_buy_cash_and_quantity (s : MockExec.MState) (sym : String)
    (price : ℚ) (qty : ℤ) :
    (s.cash < price * qty * (10003 / 10000) →
      MockExec.buy s sym price qty = (false, s)) ∧
    (price * qty * (10003 / 10000) ≤ s.cash →
      (MockExec.buy s sym price qty).1 = true ∧
      (MockExec.buy s sym price qty).2.cash =
        s.cash - price * qty * (10003 / 10000) ∧
      MockExec.qtyOf (MockExec.buy s sym price qty).2.positions sym =
        MockExec.qtyOf s.positions sym + qty) ∧
    (MockExec.buy (MockExec.init 1000000) "X" 100 100).1 = true ∧
    (MockExec.buy (MockExec.init 1000000) "X" 100 100).2.cash = 989997 ∧
    alookup (MockExec.buy (MockExec.init 1000000) "X" 100 100).2.positions "X" =
      some { quantity := 100, avg_cost := 100 } := by
  refine ⟨fun h => ?_, fun h => ?_, ?_, ?_, ?_⟩
  · simp only [MockExec.buy]
    rw [if_pos h]
  · simp only [MockExec.buy]
    rw [if_neg (not_lt.mpr h)]
    refine ⟨rfl, rfl, ?_⟩
    simp only [MockExec.qtyOf]
    cases hl : alookup s.positions sym with
    | some e =>
        dsimp only
        rw [MockExec.alookup_setPos_self _ _ _ (by rw [hl]; rfl)]
    | none =>
        dsimp only
        rw [MockExec.alookup_append_single _ _ _ hl]
        dsimp only
        omega
  · norm_num [MockExec.buy, MockExec.init]
  · norm_num [MockExec.buy, MockExec.init]
  · norm_num [MockExec.buy, MockExec.init, alookup]

/-- C6: a sell of q shares with h held rejects (portfolio unchanged) when no
position exists or q > h; otherwise it credits cash by exactly p·q·0.9997,
lowers the held quantity by q keeping avg_cost unchanged, and removes the
position entry exactly when the remaining quantity is 0. -/
theorem C6_sell_cash_and_quantity (s : MockExec.MState) (sym : String)
    (price : ℚ) (qty : ℤ) :
    (alookup s.positions sym = none →
      MockExec.sell s sym price qty = (false, s)) ∧
    (∀ e, alookup s.positions sym = some e → e.quantity < qty →
      MockExec.sell s sym price qty = (false, s)) ∧
    (∀ e, alookup s.positions sym = some e → qty ≤ e.quantity →
      (MockExec.sell s sym price qty).1 = true ∧
      (MockExec.sell s sym price qty).2.cash =
        s.cash + price * qty * (9997 / 10000) ∧
      (e.quantity - qty = 0 →
        alookup (MockExec.sell s sym price qty).2.positions sym = none) ∧
      (e.quantity - qty ≠ 0 →
        alookup (MockExec.sell s sym price qty).2.positions sym =
          some { quantity := e.quantity - qty, avg_cost := e.avg_cost })) := by
  refine ⟨fun h => ?_, fun e he h => ?_, fun e he h => ?_⟩
  · simp only [MockExec.sell]
    rw [h]
  · simp only [MockExec.sell]
    rw [he]
    dsimp only
    rw [if_pos h]
  · simp only [MockExec.sell]
    rw [he]
    dsimp only
    rw [if_neg (not_lt.mpr h)]
    refine ⟨rfl, rfl, fun hz => ?_, fun hz => ?_⟩
    · simp only [if_pos hz]
      exact MockExec.alookup_delPos s.positions sym
    · simp only [if_neg hz]
      exact MockExec.alookup_setPos_self _ _ _ (by rw [he]; rfl)

/-- C10: the portfolio valuation is cash plus the sum of quantity × price over
exactly the held positions whose symbol appears in the price mapping; a held
position absent from the mapping contributes zero (appending it changes
nothing), and the returns percentage is derived from that valuation. -/
theorem C10_portfolio_value (s : MockExec.MState) (prices : List (String × ℚ)) :
    MockExec.get_portfolio_value s prices =
      s.cash + ((s.positions.filter
          (fun kv => (alookup prices kv.1).isSome)).map
          (fun kv => (kv.2.quantity : ℚ) * ((alookup prices kv.1).getD 0))).sum ∧
    (∀ sym e, alookup prices sym = none →
      MockExec.get_portfolio_value
        { s with positions := s.positions ++ [(sym, e)] } prices =
        MockExec.get_portfolio_value s prices) ∧
    MockExec.get_returns s prices =
      (MockExec.get_portfolio_value s prices - s.initial_capital) /
        s.initial_capital * 100 := by
  refine ⟨?_, fun sym e h => ?_, rfl⟩
  · simp only [MockExec.get_portfolio_value]
    rw [MockExec.value_foldl]
    ring
  · simp [MockExec.get_portfolio_value, List.foldl_append, h]

/-! ### C1 — sentiment weight in the composite score -/

/-- C1: the claim asserts the sentiment score (weight 20, scaled by 100)
changes the composite score; in the code the factor name `sentiment` matches
no normalization branch of `FactorCompositor.calculate_composite_score`, so
its contribution is always 0 (while its weight still enters the denominator):
the composite score is the same for every sentiment score, in particular for
t = 1 and t = -1. -/
theorem C1_sentiment_never_affects_score
    (rsi momentum_5d main_flow_rate volume_ratio t t2 : ℚ) :
    DM.dmCompositeScore rsi momentum_5d main_flow_rate volume_ratio t =
      DM.dmCompositeScore rsi momentum_5d main_flow_rate volume_ratio t2 := by
  simp [DM.dmCompositeScore, DM.calculate_composite_score, alookup,
    DM.normalizedContribution]

/-! ### C3 — decision-tier boundaries -/

/-- C3 counterexample: the claim places s = -30 in the hold tier and
s = -50 in the sell tier; `_generate_decision` uses strict comparisons, so
s = -30 yields sell and s = -50 yields strong_sell. -/
theorem C3_boundary_counterexample :
    (DM.generate_decision (-30)).decision = DM.Tier.sell ∧
    (DM.generate_decision (-50)).decision = DM.Tier.strong_sell ∧
    DM.Tier.sell ≠ DM.Tier.hold := by
  refine ⟨?_, ?_, by decide⟩ <;> norm_num [DM.generate_decision]

/-- C3 amended: the mapping is total and deterministic with both negative
boundaries on the lower side: s > 50 strong_buy; 30 < s ≤ 50 buy;
-30 < s ≤ 30 hold with position min(30, int(s+30)) and confidence 5;
-50 < s ≤ -30 sell; s ≤ -50 strong_sell. -/
theorem C3_tier_mapping (s : ℚ) :
    (50 < s → (DM.generate_decision s).decision = DM.Tier.strong_buy) ∧
    (30 < s ∧ s ≤ 50 → (DM.generate_decision s).decision = DM.Tier.buy) ∧
    (-30 < s ∧ s ≤ 30 →
      (DM.generate_decision s).decision = DM.Tier.hold ∧
      (DM.generate_decision s).position = min 30 (pytrunc (s + 30)) ∧
      (DM.generate_decision s).confidence = 5) ∧
    (-50 < s ∧ s ≤ -30 → (DM.generate_decision s).decision = DM.Tier.sell) ∧
    (s ≤ -50 → (DM.generate_decision s).decision = DM.Tier.strong_sell) := by
  refine ⟨fun h => ?_, fun h => ?_, fun h => ?_, fun h => ?_, fun h => ?_⟩ <;>
    simp only [DM.generate_decision] <;>
    split_ifs <;>
    first
      | rfl
      | exact ⟨rfl, rfl, rfl⟩
      | (exfalso; obtain ⟨ha, hb⟩ := h; linarith)
      | (exfalso; linarith)

/-! ### C4, C7 — indicator edge cases -/

/-- C4: the claim says insufficient bars yield neutral defaults RSI=50 and
K=D=J=50 with no NaN reaching the caller; with a single price bar
`calculate_all_indicators` instead returns rsi = NaN (0/0 in `rs`) and
k = d = j = NaN (the 9-bar rolling window is undefined), so NaN does reach
the caller; only the MACD histogram is 0 as documented. -/
theorem C4_insufficient_bars_leak_nan :
    Ind.indRsi [10] = none ∧
    Ind.indK [10] [10] [10] = none ∧
    Ind.indD [10] [10] [10] = none ∧
    Ind.indJ [10] [10] [10] = none ∧
    Ind.indMacdHistogram [10] = some 0 := by
  refine ⟨rfl, rfl, rfl, rfl, ?_⟩
  norm_num [Ind.indMacdHistogram, Ind.macdHistSeries, Ind.ewm, Ind.ewmGo,
    Ind.lastOrZero, Ind.lastO, Ind.oSub, Ind.oAdd, Ind.oDiv, Ind.oMul,
    List.zipWith]

/-- C7 counterexample: on nine constant bars (high = low = close = 10) the
nine-bar range is zero-width; `calculate_kdj` has no guard, `rsv` is NaN at
every index (never 50), and the resulting K, D and J are NaN, not finite. -/
theorem C7_zero_width_counterexample :
    Ind.rsvSeries [10, 10, 10, 10, 10, 10, 10, 10, 10]
        [10, 10, 10, 10, 10, 10, 10, 10, 10]
        [10, 10, 10, 10, 10, 10, 10, 10, 10] = List.replicate 9 none ∧
    Ind.indK [10, 10, 10, 10, 10, 10, 10, 10, 10]
        [10, 10, 10, 10, 10, 10, 10, 10, 10]
        [10, 10, 10, 10, 10, 10, 10, 10, 10] = none ∧
    Ind.indD [10, 10, 10, 10, 10, 10, 10, 10, 10]
        [10, 10, 10, 10, 10, 10, 10, 10, 10]
        [10, 10, 10, 10, 10, 10, 10, 10, 10] = none ∧
    Ind.indJ [10, 10, 10, 10, 10, 10, 10, 10, 10]
        [10, 10, 10, 10, 10, 10, 10, 10, 10]
        [10, 10, 10, 10, 10, 10, 10, 10, 10] = none := by
  refine ⟨?_, ?_, ?_, ?_⟩ <;>
    norm_num [Ind.indK, Ind.indD, Ind.indJ, Ind.kSeries, Ind.dSeries,
      Ind.jSeries, Ind.rsvSeries, Ind.rollingMin, Ind.rollingMax,
      Ind.windowAt, Ind.listMin, Ind.listMax, List.range_succ, Ind.ewm,
      Ind.ewmGo, Ind.lastOrZero, Ind.lastO, Ind.oSub, Ind.oAdd, Ind.oDiv,
      Ind.oMul, List.zipWith, List.replicate] <;>
    (intro h; simp at h)

/-- C7 amended: when the nine-bar highest high equals the nine-bar lowest low
at some index, `calculate_kdj` divides by the zero-width range there and the
`rsv` value at that index is NaN (non-finite) — not the guarded value 50 the
claim describes. -/
theorem C7_amended_zero_width_rsv_nan (high low close : List ℚ) (i : ℕ) (m : ℚ)
    (hlow : low.length = close.length) (hhigh : high.length = close.length)
    (hi : i < close.length)
    (hmin : (Ind.rollingMin 9 low)[i]? = some (some m))
    (hmax : (Ind.rollingMax 9 high)[i]? = some (some m)) :
    (Ind.rsvSeries high low close)[i]? = some none := by
  have hbl : i < (Ind.rollingMin 9 low).length := by
    simpa [Ind.rollingMin, hlow] using hi
  have hbh : i < (Ind.rollingMax 9 high).length := by
    simpa [Ind.rollingMax, hhigh] using hi
  have hbz : i < ((Ind.rollingMin 9 low).zip (Ind.rollingMax 9 high)).length := by
    simpa [List.length_zip, Ind.rollingMin, Ind.rollingMax, hlow, hhigh] using hi
  have hb : i < (Ind.rsvSeries high low close).length := by
    simpa [Ind.rsvSeries, List.length_zipWith, List.length_zip, Ind.rollingMin,
      Ind.rollingMax, hlow, hhigh] using hi
  rw [List.getElem?_eq_getElem hbl] at hmin
  rw [List.getElem?_eq_getElem hbh] at hmax
  simp only [Option.some.injEq] at hmin hmax
  rw [List.getElem?_eq_getElem hb]
  have hzipv : ((Ind.rollingMin 9 low).zip (Ind.rollingMax 9 high)).get ⟨i, hbz⟩ =
      (some m, some m) := by
    rw [List.get_eq_getElem, List.getElem_zip, hmin, hmax]
  simp only [Option.some.injEq]
  simp only [Ind.rsvSeries]
  rw [List.getElem_zipWith]
  rw [List.get_eq_getElem] at hzipv
  rw [hzipv]
  simp [Ind.oSub, Ind.oDiv, Ind.oMul]

/-! ### C2, C8, C9 — risk control gate -/

/-- A buy decision requesting 50 percent with default confidence. -/
def cexBuy50 : Risk.RDecision :=
  { decision := DM.Tier.buy, position := 50, confidence := 5, symbol := "X" }

/-- A buy decision requesting 0 percent. -/
def cexBuy0 : Risk.RDecision :=
  { decision := DM.Tier.buy, position := 0, confidence := 5, symbol := "X" }

/-- An empty portfolio. -/
def cexEmptyPort : Risk.RPortfolio :=
  { positions := [], total_position := 0, lossOf := fun _ => 0, drawdown := 0 }

/-- A buy decision requesting 10 percent of symbol A. -/
def cexBuyA : Risk.RDecision :=
  { decision := DM.Tier.buy, position := 10, confidence := 5, symbol := "A" }

/-- A portfolio at the 80 percent total cap holding 40 percent of symbol A. -/
def cexFullPort : Risk.RPortfolio :=
  { positions := [("A", 40)], total_position := 80, lossOf := fun _ => 0,
    drawdown := 0 }

/-- A portfolio holding 20 percent of symbol A, below every cap. -/
def cexSmallPortA : Risk.RPortfolio :=
  { positions := [("A", 20)], total_position := 20, lossOf := fun _ => 0,
    drawdown := 0 }

/-- A portfolio holding one other symbol B at 10 percent. -/
def cexPortB : Risk.RPortfolio :=
  { positions := [("B", 10)], total_position := 10, lossOf := fun _ => 0,
    drawdown := 0 }

theorem Risk.adjAfter5_le (cfg : Risk.RiskConfig) (d : Risk.RDecision)
    (p : Risk.RPortfolio)
    (hex : 0 < Risk.getPositionBySymbol p.positions d.symbol)
    (hmax : 0 ≤ cfg.max_single_position) :
    Risk.adjAfter5 cfg d p ≤ cfg.max_single_position := by
  simp only [Risk.adjAfter5]
  split_ifs with h1 h2
  · exact hmax
  · linarith
  · unfold Risk.rule5Fires at h1
    push_neg at h1
    have h3 := h1 (ne_of_gt hex)
    linarith

theorem Risk.riskRun_adjusted (cfg : Risk.RiskConfig) (d : Risk.RDecision)
    (p : Risk.RPortfolio) :
    (Risk.riskRun cfg d p).1.adjusted_position = 0 ∨
    (Risk.riskRun cfg d p).1.adjusted_position = Risk.adjAfter7 cfg d p := by
  simp only [Risk.riskRun]
  split_ifs <;> simp

/-- C2 counterexample: with the default configuration, a 50 percent request
on a symbol with no existing position is approved at 50 percent — above the
30 percent max_single_position — and a 0 percent request is approved with
adjusted_position = 0; both halves of the claim fail. -/
theorem C2_gate_counterexample :
    (Risk.riskRun Risk.defaultRiskConfig cexBuy50 cexEmptyPort).1.approved = true ∧
    (Risk.riskRun Risk.defaultRiskConfig cexBuy50 cexEmptyPort).1.adjusted_position = 50 ∧
    Risk.defaultRiskConfig.max_single_position = 30 ∧
    (Risk.riskRun Risk.defaultRiskConfig cexBuy0 cexEmptyPort).1.approved = true ∧
    (Risk.riskRun Risk.defaultRiskConfig cexBuy0 cexEmptyPort).1.adjusted_position = 0 := by
  refine ⟨?_, ?_, rfl, ?_, ?_⟩ <;>
    norm_num [Risk.riskRun, Risk.adjAfter2, Risk.adjAfter4, Risk.adjAfter5,
      Risk.adjAfter6, Risk.adjAfter7, Risk.rule5Fires, Risk.getPositionBySymbol,
      Risk.defaultRiskConfig, cexBuy50, cexBuy0, cexEmptyPort, alookup] <;>
    rw [if_neg (by decide :
      ¬(DM.Tier.buy = DM.Tier.strong_sell ∨ DM.Tier.buy = DM.Tier.sell))]

/-- C2 amended: the returned adjusted_position is bounded by
max_single_position whenever the symbol has an existing positive position and
the cap is nonnegative; with no existing position the single-symbol rule is
skipped entirely, and approved = true with adjusted_position = 0 can occur. -/
theorem C2_amended_single_cap (cfg : Risk.RiskConfig) (d : Risk.RDecision)
    (p : Risk.RPortfolio)
    (hex : 0 < Risk.getPositionBySymbol p.positions d.symbol)
    (hmax : 0 ≤ cfg.max_single_position) :
    (Risk.riskRun cfg d p).1.adjusted_position ≤ cfg.max_single_position := by
  rcases Risk.riskRun_adjusted cfg d p with h | h <;> rw [h]
  · exact hmax
  · have h5 := Risk.adjAfter5_le cfg d p hex hmax
    simp only [Risk.adjAfter7, Risk.adjAfter6]
    split_ifs <;> first | exact hmax | exact h5

theorem C2_amended_single_cap_witness :
    (Risk.riskRun Risk.defaultRiskConfig cexBuyA cexSmallPortA).1.adjusted_position ≤
      Risk.defaultRiskConfig.max_single_position :=
  C2_amended_single_cap Risk.defaultRiskConfig cexBuyA cexSmallPortA
    (by norm_num [Risk.getPositionBySymbol, cexBuyA, cexSmallPortA, alookup])
    (by norm_num [Risk.defaultRiskConfig])

/-- C8 counterexample: at the total-position cap (rule 4 sets risk_level to
high) with an oversized existing position in the same symbol (rule 5 then
assigns medium), the risk level is lowered from high back to medium within a
single evaluation, and the returned risk_level is medium. -/
theorem C8_escalation_counterexample :
    (Risk.riskRun Risk.defaultRiskConfig cexBuyA cexFullPort).2 =
      [Risk.RiskLevel.high, Risk.RiskLevel.medium] ∧
    (Risk.riskRun Risk.defaultRiskConfig cexBuyA cexFullPort).1.risk_level =
      Risk.RiskLevel.medium ∧
    ¬ Risk.highPersists (Risk.riskRun Risk.defaultRiskConfig cexBuyA cexFullPort).2 := by
  have h : (Risk.riskRun Risk.defaultRiskConfig cexBuyA cexFullPort).2 =
      [Risk.RiskLevel.high, Risk.RiskLevel.medium] := by
    norm_num [Risk.riskRun, Risk.adjAfter2, Risk.adjAfter4, Risk.adjAfter5,
      Risk.adjAfter6, Risk.adjAfter7, Risk.rule5Fires, Risk.getPositionBySymbol,
      Risk.defaultRiskConfig, cexBuyA, cexFullPort, alookup]
    rw [if_neg (by decide :
      ¬(DM.Tier.buy = DM.Tier.strong_sell ∨ DM.Tier.buy = DM.Tier.sell))]
  refine ⟨h, ?_, ?_⟩
  · norm_num [Risk.riskRun, Risk.adjAfter2, Risk.adjAfter4, Risk.adjAfter5,
      Risk.adjAfter6, Risk.adjAfter7, Risk.rule5Fires, Risk.getPositionBySymbol,
      Risk.defaultRiskConfig, cexBuyA, cexFullPort, alookup]
    rw [if_neg (by decide :
      ¬(DM.Tier.buy = DM.Tier.strong_sell ∨ DM.Tier.buy = DM.Tier.sell))]
  · rw [h]; decide

/-- C8 amended: the risk level does escalate monotonically (once high, it
stays high through the rest of the evaluation trace) whenever the
single-symbol clamp (rule 5) does not fire; rule 5 assigns medium
unconditionally when it clamps, and is the only rule that can lower an
earlier high. -/
theorem C8_amended_escalation (cfg : Risk.RiskConfig) (d : Risk.RDecision)
    (p : Risk.RPortfolio) (h : ¬ Risk.rule5Fires cfg d p) :
    Risk.highPersists (Risk.riskRun cfg d p).2 := by
  simp only [Risk.riskRun]
  split_ifs <;> dsimp only <;> decide

theorem C8_amended_escalation_witness :
    Risk.highPersists (Risk.riskRun Risk.defaultRiskConfig cexBuyA cexPortB).2 :=
  C8_amended_escalation Risk.defaultRiskConfig cexBuyA cexPortB
    (by
      have h0 : Risk.getPositionBySymbol cexPortB.positions cexBuyA.symbol = 0 := by
        simp [Risk.getPositionBySymbol, alookup, cexPortB, cexBuyA]
      simp [Risk.rule5Fires, h0])

/-- C9: a truthy (non-empty) `config` argument is merged into the agent's
stored configuration, which every later `run` call uses even when `config` is
omitted: the same decision and portfolio approved under the default
configuration is rejected after an earlier call merged `max_positions = 1`,
so `run` is not a pure function of its arguments. -/
theorem C9_config_merge_persists :
    (∀ (st : Risk.RiskConfig) (d : Risk.RDecision) (p : Risk.RPortfolio)
        (patch : List (Risk.RKey × ℚ)), patch ≠ [] →
      (Risk.runS st d p patch).2 = Risk.applyPatch st patch) ∧
    (Risk.runS Risk.defaultRiskConfig cexBuyA cexPortB []).1.1.approved = true ∧
    (Risk.runS (Risk.runS Risk.defaultRiskConfig cexBuyA cexPortB
        [(Risk.RKey.max_positions, 1)]).2 cexBuyA cexPortB []).1.1.approved = false := by
  refine ⟨fun st d p patch hp => ?_, ?_, ?_⟩
  · simp [Risk.runS, hp]
  · norm_num [Risk.runS, Risk.riskRun, Risk.adjAfter2, Risk.adjAfter4,
      Risk.adjAfter5, Risk.adjAfter6, Risk.adjAfter7, Risk.rule5Fires,
      Risk.getPositionBySymbol, Risk.defaultRiskConfig, cexBuyA, cexPortB,
      alookup]
    rw [if_neg (by decide :
      ¬(DM.Tier.buy = DM.Tier.strong_sell ∨ DM.Tier.buy = DM.Tier.sell))]
  · norm_num [Risk.runS, Risk.riskRun, Risk.applyPatch, Risk.setKey,
      Risk.adjAfter2, Risk.adjAfter4, Risk.adjAfter5, Risk.adjAfter6,
      Risk.adjAfter7, Risk.rule5Fires, Risk.getPositionBySymbol,
      Risk.defaultRiskConfig, cexBuyA, cexPortB, alookup]
    rw [if_neg (by decide :
      ¬(DM.Tier.buy = DM.Tier.strong_sell ∨ DM.Tier.buy = DM.Tier.sell))]

theorem C7_amended_zero_width_witness :
    (Ind.rsvSeries [10, 10, 10, 10, 10, 10, 10, 10, 10]
        [10, 10, 10, 10, 10, 10, 10, 10, 10]
        [10, 10, 10, 10, 10, 10, 10, 10, 10])[8]? = some none :=
  C7_amended_zero_width_rsv_nan [10, 10, 10, 10, 10, 10, 10, 10, 10]
    [10, 10, 10, 10, 10, 10, 10, 10, 10] [10, 10, 10, 10, 10, 10, 10, 10, 10]
    8 10 rfl rfl (by norm_num)
    (by norm_num [Ind.rollingMin, Ind.windowAt, Ind.listMin, List.range_succ])
    (by norm_num [Ind.rollingMax, Ind.windowAt, Ind.listMax, List.range_succ])
